import Mathlib

/-!
Shallow embedding of the Career Development Assistant frontend
(Saurabh7339/Career-Development-Assistant).

Embedded source files:
- src/frontend/src/components/AnalysisChat.jsx (AnalysisChat, ProfileForm,
  ProfileDisplay components)
- src/frontend/src/App.jsx (view routing and profile selection)
- ProfileList component and the api service layer (src/unnamed/part_000)

JavaScript strings become Lean `String`; fields that may be `undefined`
become `Option`; JS truthiness of a string (`""` and `undefined` are falsy)
is made explicit through `orElseStr` / `optTruthy` / `firstTruthy`.
React per-component-instance state (`useState`) is embedded as a map from
instance ids to per-instance state (`InstView`): a state setter captured by
an asynchronous continuation always writes to the instance that issued the
request, while the screen shows the state of the currently mounted instance.
`Date` timestamps are presentational and are not modelled; message order is
the list order, which is how the components render the log.
-/

/-- JS `String.prototype.trim()`: strip leading and trailing whitespace.
Embedded over the character list so that it is kernel-computable. -/
def jsTrim (s : String) : String :=
  String.mk (((s.data.dropWhile Char.isWhitespace).reverse.dropWhile
    Char.isWhitespace).reverse)

/-- JS `String.prototype.toLowerCase()`, embedded over the character list so
that it is kernel-computable. -/
def jsToLower (s : String) : String := String.mk (s.data.map Char.toLower)

/-- JS string expression `a || b`: the empty string is falsy. -/
def orElseStr (a b : String) : String := if a = "" then b else a

/-- JS truthiness of an optional string field: `undefined` and `""` are falsy. -/
def optTruthy (o : Option String) : Option String :=
  match o with
  | some s => if s = "" then none else some s
  | none => none

/-- JS `a || b` over two optional string fields, as in
`profile.id || profile.profile_id` (App.jsx line 37, ProfileList line 71). -/
def firstTruthy (a b : Option String) : Option String :=
  match optTruthy a with
  | some s => some s
  | none => optTruthy b

/-- A skill entry of a profile (ProfileForm state `newSkill`,
AnalysisChat.jsx lines 215 and 262-266). -/
structure Skill where
  name : String
  proficiency : String
  years_experience : Nat
deriving DecidableEq

/-- A profile record as received from the server.  `id` and `profile_id`
are optional because the frontend probes both (`profile.id || profile.profile_id`). -/
structure ProfileRec where
  id : Option String
  profile_id : Option String
  name : String
  current_role : String
  skills : List Skill
  certifications : List String
deriving DecidableEq

/-- The target-role object built for an analysis request
(AnalysisChat.jsx lines 39-43 and 536-540). -/
structure TargetRole where
  role_name : String
  description : String
  skill_framework : String
deriving DecidableEq

/-- The body of a POST /api/analyze request (AnalysisChat.jsx lines 36-45). -/
structure AnalysisRequest where
  user_profile_id : Option String
  user_query : String
  target_role : TargetRole
  use_rag : Bool
deriving DecidableEq

/-- One categorized skill of an analysis result (rendered by the skills modal,
AnalysisChat.jsx lines 908-921). -/
structure SkillGapItem where
  skill_name : String
  status : String
deriving DecidableEq

/-- The analysis response used by the chat and dashboard views. -/
structure GapReport where
  analysis_summary : Option String
  skills_met : List SkillGapItem
  skills_missing : List SkillGapItem
  skills_weak : List SkillGapItem
deriving DecidableEq

/-- Message kinds of the chat log (`type` field, AnalysisChat.jsx lines 24, 50, 59). -/
inductive MsgKind where
  | user
  | assistant
  | error
deriving DecidableEq

/-- One chat message (AnalysisChat.jsx lines 23-27, 49-54, 58-62).
The `Date` timestamp is presentational and not modelled. -/
structure ChatMessage where
  kind : MsgKind
  content : String
  report : Option GapReport
deriving DecidableEq

/-- The axios-style error consumed by the catch branches:
`detail` is `error.response?.data?.detail` (collapsing the optional chain:
`none` when response, data or detail is absent), `message` is `error.message`. -/
structure ApiError where
  detail : Option String
  message : String
deriving DecidableEq

/-- The component state of AnalysisChat (AnalysisChat.jsx lines 6-9). -/
structure ChatState where
  messages : List ChatMessage
  input : String
  loading : Bool
  targetRole : String
deriving DecidableEq

/-- The optimistic user message built by handleSend (AnalysisChat.jsx lines 23-27). -/
def userMessageOf (s : ChatState) : ChatMessage :=
  { kind := MsgKind.user, content := s.input, report := none }

/-- The synchronous first phase of handleSend (AnalysisChat.jsx lines 20-47):
the blank/busy guard, then
append the user message, set loading, clear the input, and build the request
that is passed to `analysisAPI.analyze`.  Returns the updated state and the
issued request (`none` when the guard rejects the call). -/
def handleSendStart (profile : ProfileRec) (s : ChatState) :
    ChatState × Option AnalysisRequest :=
  if jsTrim s.input = "" ∨ jsTrim s.targetRole = "" ∨ s.loading = true then
    (s, none)
  else
    ({ s with
        messages := s.messages ++ [userMessageOf s]
        loading := true
        input := "" },
     some
       { user_profile_id := firstTruthy profile.id profile.profile_id
         user_query := s.input
         target_role :=
           { role_name := s.targetRole
             description := ""
             skill_framework := "" }
         use_rag := true })

/-- The error text of the catch branch (AnalysisChat.jsx line 60):
`error.response?.data?.detail || error.message || 'Failed to analyze skills'`. -/
def errorText (e : ApiError) : String :=
  orElseStr (e.detail.getD "") (orElseStr e.message "Failed to analyze skills")

/-- The message appended once the analyze call settles:
on success the assistant message (AnalysisChat.jsx lines 49-54, text
`response.analysis_summary || 'Analysis completed'` with the full report
attached), on failure the error message (lines 58-62). -/
def responseMessage (outcome : Except ApiError GapReport) : ChatMessage :=
  match outcome with
  | Except.ok r =>
      { kind := MsgKind.assistant
        content := orElseStr (r.analysis_summary.getD "") "Analysis completed"
        report := some r }
  | Except.error e =>
      { kind := MsgKind.error
        content := errorText e
        report := none }

/-- The settlement phase of handleSend (AnalysisChat.jsx lines 48-66):
append the assistant or error message; the finally block clears loading. -/
def handleSendSettle (s : ChatState) (outcome : Except ApiError GapReport) :
    ChatState :=
  { s with
      messages := s.messages ++ [responseMessage outcome]
      loading := false }

/-- A whole run of handleSend given the outcome the analyze call will have:
the guard-rejected call stops after the first phase; otherwise the
settlement phase runs on every outcome (the try/catch/finally covers
success, failure and unexpected errors alike). -/
def handleSendRun (profile : ProfileRec) (s : ChatState)
    (outcome : Except ApiError GapReport) : ChatState :=
  match handleSendStart profile s with
  | (s1, none) => s1
  | (s1, some _) => handleSendSettle s1 outcome

/-- The view states of App.jsx (line 9): list, create, profile detail, chat. -/
inductive View where
  | list
  | create
  | profileDetail
  | chat
deriving DecidableEq

/-- The top-level App state (App.jsx lines 9-10): the active view and the
selected profile. -/
structure AppState where
  view : View
  selectedProfile : Option ProfileRec
deriving DecidableEq

/-- handleSelectProfile (App.jsx lines 35-45): resolve
`profile.id || profile.profile_id`; refuse with an alert when no id resolves,
otherwise store the profile with the resolved id and go to the profile view.
Returns the new state and the alert text, when one is shown. -/
def handleSelectProfile (s : AppState) (p : ProfileRec) :
    AppState × Option String :=
  match firstTruthy p.id p.profile_id with
  | none => (s, some "Error: Profile ID not found. Please try again.")
  | some pid =>
      ({ view := View.profileDetail, selectedProfile := some { p with id := some pid } },
       none)

/-- The profileId prop handed to ProfileDisplay (App.jsx line 109):
`selectedProfile.id || selectedProfile.profile_id || selectedProfile.id`. -/
def detailViewId (p : ProfileRec) : Option String :=
  firstTruthy (firstTruthy p.id p.profile_id) p.id

/-- A click on a profile card in ProfileList (ProfileList lines 70-83):
the list view resolves the id itself, calls `onSelectProfile` (that is,
App's handleSelectProfile) with the id patched in when it resolves, and
alerts without calling it otherwise. -/
def profileListClick (s : AppState) (p : ProfileRec) : AppState × Option String :=
  match firstTruthy p.id p.profile_id with
  | none => (s, some "Error: Profile ID not found")
  | some pid => handleSelectProfile s { p with id := some pid }

/-- handleAnalyze of ProfileDisplay (AnalysisChat.jsx lines 522-544):
refuse when the profileId prop is falsy; otherwise build the analyze request
with `analysisQuery || default question` and `targetRole || 'Target Role'`.
Returns the issued request, `none` when the guard refuses. -/
def handleAnalyzeRequest (profileId : Option String)
    (analysisQuery targetRole : String) : Option AnalysisRequest :=
  match optTruthy profileId with
  | none => none
  | some pid =>
      some
        { user_profile_id := some pid
          user_query :=
            orElseStr analysisQuery
              ("I want to transition to " ++ orElseStr targetRole "a new role" ++ ".")
          target_role :=
            { role_name := orElseStr targetRole "Target Role"
              description := ""
              skill_framework := "" }
          use_rag := true }

/-- The skills-modal state of ProfileDisplay
(AnalysisChat.jsx lines 469-471): showSkillsModal, modalSkills, modalTitle. -/
structure ModalState where
  isOpen : Bool
  items : List SkillGapItem
  title : String
deriving DecidableEq

/-- handleShowSkills (AnalysisChat.jsx lines 556-564): with an absent or
empty list, alert with the lowercased title and leave the state alone;
otherwise set the items, the title and open the modal.  Returns the new
modal state and the alert text, when one is shown. -/
def handleShowSkills (m : ModalState) (skills : Option (List SkillGapItem))
    (title : String) : ModalState × Option String :=
  match skills with
  | none => (m, some ("No " ++ jsToLower title ++ " found."))
  | some ss =>
      if ss.length = 0 then
        (m, some ("No " ++ jsToLower title ++ " found."))
      else
        ({ isOpen := true, items := ss, title := title }, none)

/-- handleCloseModal (AnalysisChat.jsx lines 566-570). -/
def handleCloseModal (_m : ModalState) : ModalState :=
  { isOpen := false, items := [], title := "" }

/-- The ProfileForm state relevant to adding entries
(AnalysisChat.jsx lines 208-216). -/
structure FormState where
  skills : List Skill
  certifications : List String
  newSkill : Skill
  newCert : String
deriving DecidableEq

/-- handleAddSkill (AnalysisChat.jsx lines 220-228): append a copy of
`newSkill` and reset the entry fields, but only when the pending name is
non-blank after trimming. -/
def handleAddSkill (f : FormState) : FormState :=
  if jsTrim f.newSkill.name = "" then
    f
  else
    { f with
        skills := f.skills ++ [f.newSkill]
        newSkill := { name := "", proficiency := "beginner", years_experience := 0 } }

/-- handleAddCert (AnalysisChat.jsx lines 237-245): append `newCert` and
clear it, but only when it is non-blank after trimming. -/
def handleAddCert (f : FormState) : FormState :=
  if jsTrim f.newCert = "" then
    f
  else
    { f with
        certifications := f.certifications ++ [f.newCert]
        newCert := "" }

/-- The payload the list endpoint resolved with: either a JSON array of
profiles or any non-array value (modelled opaquely by its printed form). -/
inductive ListPayload where
  | arr (ps : List ProfileRec)
  | nonArray (raw : String)
deriving DecidableEq

/-- The profiles state stored by loadProfiles (ProfileList line 18):
`setProfiles(Array.isArray(data) ? data : [])`. -/
def storeProfiles (data : ListPayload) : List ProfileRec :=
  match data with
  | ListPayload.arr ps => ps
  | ListPayload.nonArray _ => []

/-- What the list view renders for a profiles state
(ProfileList lines 56-68): the empty state with its message, or the grid. -/
inductive ListRender where
  | emptyState (msg : String)
  | grid (ps : List ProfileRec)
deriving DecidableEq

/-- The render branch of ProfileList (lines 56-94). -/
def renderProfileList (ps : List ProfileRec) : ListRender :=
  if ps.length = 0 then ListRender.emptyState "No profiles found" else ListRender.grid ps

/-- React per-instance component state for one mount point: `current` is the
id of the mounted instance (`none` while navigated away), `nextInst` the next
fresh instance id, `stores` the useState cell of every instance that ever
mounted.  A setter captured by an asynchronous continuation writes to the
instance that issued the request; the screen shows the mounted instance. -/
structure InstView (σ : Type) where
  current : Option Nat
  nextInst : Nat
  stores : Nat → σ

/-- Mounting the component afresh (entering the view): a fresh instance id
whose state starts at the useState initial value `d`. -/
def mountView {σ : Type} (d : σ) (s : InstView σ) : InstView σ :=
  { current := some s.nextInst
    nextInst := s.nextInst + 1
    stores := fun k => if k = s.nextInst then d else s.stores k }

/-- handleBackToList (App.jsx lines 52-55) unmounts the active view's
component; its instance state is no longer rendered. -/
def unmountView {σ : Type} (s : InstView σ) : InstView σ :=
  { s with current := none }

/-- A state setter bound to instance `inst` firing with update `f` — for
example `setProfile(data)` inside loadProfile (AnalysisChat.jsx line 493) or
`setMessages(prev => [...prev, msg])` inside handleSend, resolving after an
await.  It writes the issuing instance's cell, unconditionally. -/
def applyToInstance {σ : Type} (inst : Nat) (f : σ → σ) (s : InstView σ) :
    InstView σ :=
  { s with stores := fun k => if k = inst then f (s.stores k) else s.stores k }

/-- What the mount point renders: the state of the mounted instance. -/
def displayed {σ : Type} (s : InstView σ) : Option σ :=
  s.current.map s.stores

/-- The per-instance state of ProfileDisplay that matters here: the
profileId prop it was mounted with and its `profile` useState cell
(AnalysisChat.jsx lines 459-460). -/
structure DetailInst where
  pid : String
  profile : Option ProfileRec
deriving DecidableEq

/-- Opening the detail view for profile `pid` (App.jsx lines 107-112 render
ProfileDisplay): a fresh instance whose `profile` starts at `null`. -/
def openProfileDetail (pid : String) (s : InstView DetailInst) :
    InstView DetailInst :=
  mountView { pid := pid, profile := none } s

/-- A getProfile response resolving for the request issued by instance
`inst`: loadProfile's `setProfile(data)` (AnalysisChat.jsx lines 492-493). -/
def applyGetProfileResponse (inst : Nat) (data : ProfileRec)
    (s : InstView DetailInst) : InstView DetailInst :=
  applyToInstance inst (fun st => { st with profile := some data }) s

/-- Opening the chat view (App.jsx lines 114-120 render AnalysisChat): a
fresh instance whose message log starts empty (AnalysisChat.jsx line 6). -/
def openChat (s : InstView (List ChatMessage)) : InstView (List ChatMessage) :=
  mountView [] s

/-- An analyze response resolving for the request issued by chat instance
`inst`: handleSend's `setMessages(prev => [...prev, msg])`
(AnalysisChat.jsx lines 56 and 63). -/
def applyChatAppend (inst : Nat) (m : ChatMessage)
    (s : InstView (List ChatMessage)) : InstView (List ChatMessage) :=
  applyToInstance inst (fun ms => ms ++ [m]) s

/-- Sample values used by the concrete witness theorems. -/
def sampleProfile : ProfileRec :=
  { id := some "p1", profile_id := none, name := "Ada", current_role := "Dev"
    skills := [], certifications := [] }

def sampleProfile2 : ProfileRec :=
  { id := some "p2", profile_id := none, name := "Grace", current_role := "Lead"
    skills := [], certifications := [] }

def sampleReport : GapReport :=
  { analysis_summary := some "summary", skills_met := [⟨"Java", "met"⟩]
    skills_missing := [], skills_weak := [] }

def sampleDetailView : InstView DetailInst :=
  { current := some 0, nextInst := 1, stores := fun _ => { pid := "p1", profile := none } }

def sampleChatView : InstView (List ChatMessage) :=
  { current := some 0, nextInst := 1, stores := fun _ => [] }

def sampleMsg : ChatMessage :=
  { kind := MsgKind.assistant, content := "late reply", report := none }

/-! Helper lemmas shared by the claim theorems. -/

/-- A string whose JS trim is non-empty is itself non-empty. -/
theorem ne_empty_of_jsTrim_ne_empty (s : String) (h : jsTrim s ≠ "") : s ≠ "" := by
  intro h0
  rw [h0] at h
  exact h (by decide)

/-- `a || b` is non-empty whenever the fallback `b` is. -/
theorem orElseStr_ne_empty (a b : String) (hb : b ≠ "") : orElseStr a b ≠ "" := by
  by_cases h : a = "" <;> simp [orElseStr, h, hb]

/-- A truthy optional string is non-empty. -/
theorem optTruthy_ne_empty (o : Option String) (s : String)
    (h : optTruthy o = some s) : s ≠ "" := by
  rcases o with _ | t
  · simp [optTruthy] at h
  · by_cases ht : t = ""
    · simp [optTruthy, ht] at h
    · simp [optTruthy, ht] at h
      subst h
      exact ht

/-- A resolved `profile.id || profile.profile_id` is non-empty. -/
theorem firstTruthy_ne_empty (a b : Option String) (s : String)
    (h : firstTruthy a b = some s) : s ≠ "" := by
  unfold firstTruthy at h
  cases ha : optTruthy a with
  | none =>
      rw [ha] at h
      exact optTruthy_ne_empty b s h
  | some t =>
      rw [ha] at h
      simp at h
      subst h
      exact optTruthy_ne_empty a _ ha

/-- A non-empty truthy optional string resolves to itself on the left. -/
theorem firstTruthy_some_left (b : Option String) (s : String) (hs : s ≠ "") :
    firstTruthy (some s) b = some s := by
  simp [firstTruthy, optTruthy, hs]

/-- Claim C2: when the query or the target role is blank after trimming, or a
request is in flight, handleSend is a complete no-op — no user message is
appended, no request is issued, loading and the input buffer are unchanged. -/
theorem submit_blank_or_busy_noop (p : ProfileRec) (s : ChatState)
    (h : jsTrim s.input = "" ∨ jsTrim s.targetRole = "" ∨ s.loading = true) :
    handleSendStart p s = (s, none) := by
  unfold handleSendStart
  rw [if_pos h]

theorem submit_blank_or_busy_noop_witness :
    (jsTrim (ChatState.mk [] "" false "Architect").input = "" ∨
     jsTrim (ChatState.mk [] "" false "Architect").targetRole = "" ∨
     (ChatState.mk [] "" false "Architect").loading = true) ∧
    handleSendStart sampleProfile (ChatState.mk [] "" false "Architect")
      = (ChatState.mk [] "" false "Architect", none) :=
  ⟨Or.inl (by decide),
   submit_blank_or_busy_noop sampleProfile (ChatState.mk [] "" false "Architect")
     (Or.inl (by decide))⟩

/-- Claim C3: for every submission passing the preconditions, loading is set
before the request is issued, a request is indeed issued, and loading is
false again after the call settles, on every outcome. -/
theorem busy_always_clears (p : ProfileRec) (s : ChatState)
    (h1 : jsTrim s.input ≠ "") (h2 : jsTrim s.targetRole ≠ "")
    (h3 : s.loading = false) :
    (handleSendStart p s).1.loading = true ∧
    (handleSendStart p s).2.isSome = true ∧
    ∀ outcome : Except ApiError GapReport,
      (handleSendRun p s outcome).loading = false := by
  have hg : ¬(jsTrim s.input = "" ∨ jsTrim s.targetRole = "" ∨ s.loading = true) := by
    simp [h1, h2, h3]
  unfold handleSendRun handleSendStart handleSendSettle
  rw [if_neg hg]
  simp

theorem busy_always_clears_witness :
    jsTrim (ChatState.mk [] "goal" false "Architect").input ≠ "" ∧
    jsTrim (ChatState.mk [] "goal" false "Architect").targetRole ≠ "" ∧
    ((handleSendStart sampleProfile (ChatState.mk [] "goal" false "Architect")).1.loading = true ∧
     (handleSendStart sampleProfile (ChatState.mk [] "goal" false "Architect")).2.isSome = true ∧
     ∀ outcome : Except ApiError GapReport,
       (handleSendRun sampleProfile (ChatState.mk [] "goal" false "Architect") outcome).loading
         = false) :=
  ⟨by decide, by decide,
   busy_always_clears sampleProfile (ChatState.mk [] "goal" false "Architect")
     (by decide) (by decide) rfl⟩

/-- Claim C5: the chat log is only ever extended at the end; the optimistic
user message is appended synchronously before the request is issued and the
settled log is exactly the old log followed by the user message and then its
assistant or error message, so the user message strictly precedes it. -/
theorem message_log_append_only (p : ProfileRec) (s : ChatState)
    (h1 : jsTrim s.input ≠ "") (h2 : jsTrim s.targetRole ≠ "")
    (h3 : s.loading = false) :
    (handleSendStart p s).1.messages = s.messages ++ [userMessageOf s] ∧
    ∀ outcome : Except ApiError GapReport,
      (handleSendRun p s outcome).messages
        = s.messages ++ [userMessageOf s, responseMessage outcome] := by
  have hg : ¬(jsTrim s.input = "" ∨ jsTrim s.targetRole = "" ∨ s.loading = true) := by
    simp [h1, h2, h3]
  unfold handleSendRun handleSendStart handleSendSettle
  rw [if_neg hg]
  simp

theorem message_log_append_only_witness :
    jsTrim (ChatState.mk [] "goal" false "Architect").input ≠ "" ∧
    jsTrim (ChatState.mk [] "goal" false "Architect").targetRole ≠ "" ∧
    ((handleSendStart sampleProfile (ChatState.mk [] "goal" false "Architect")).1.messages
        = (ChatState.mk [] "goal" false "Architect").messages
            ++ [userMessageOf (ChatState.mk [] "goal" false "Architect")] ∧
     ∀ outcome : Except ApiError GapReport,
       (handleSendRun sampleProfile (ChatState.mk [] "goal" false "Architect") outcome).messages
         = (ChatState.mk [] "goal" false "Architect").messages
             ++ [userMessageOf (ChatState.mk [] "goal" false "Architect"),
                 responseMessage outcome]) :=
  ⟨by decide, by decide,
   message_log_append_only sampleProfile (ChatState.mk [] "goal" false "Architect")
     (by decide) (by decide) rfl⟩

/-- Claim C7: no analyze request issued by the chat view or the dashboard
view carries an empty target_role.role_name — the chat guard makes the role
non-blank, the dashboard substitutes the fixed fallback role. -/
theorem analysis_role_name_nonempty (p : ProfileRec) (s : ChatState)
    (pid : Option String) (q role : String) :
    (∀ req : AnalysisRequest, (handleSendStart p s).2 = some req →
        req.target_role.role_name ≠ "") ∧
    (∀ req : AnalysisRequest, handleAnalyzeRequest pid q role = some req →
        req.target_role.role_name ≠ "") := by
  constructor
  · intro req hreq
    unfold handleSendStart at hreq
    by_cases hg : jsTrim s.input = "" ∨ jsTrim s.targetRole = "" ∨ s.loading = true
    · rw [if_pos hg] at hreq
      simp at hreq
    · rw [if_neg hg] at hreq
      push_neg at hg
      obtain ⟨-, h2, -⟩ := hg
      simp at hreq
      subst hreq
      exact ne_empty_of_jsTrim_ne_empty s.targetRole h2
  · intro req hreq
    unfold handleAnalyzeRequest at hreq
    cases hp : optTruthy pid with
    | none =>
        rw [hp] at hreq
        simp at hreq
    | some v =>
        rw [hp] at hreq
        simp at hreq
        subst hreq
        exact orElseStr_ne_empty role "Target Role" (by decide)

theorem analysis_role_name_nonempty_witness :
    (AnalysisRequest.mk (some "p1") "goal" (TargetRole.mk "Architect" "" "") true
        ).target_role.role_name ≠ "" ∧
    (AnalysisRequest.mk (some "p1")
        "I want to transition to a new role." (TargetRole.mk "Target Role" "" "") true
        ).target_role.role_name ≠ "" :=
  ⟨(analysis_role_name_nonempty sampleProfile (ChatState.mk [] "goal" false "Architect")
      (some "p1") "" "").1
      (AnalysisRequest.mk (some "p1") "goal" (TargetRole.mk "Architect" "" "") true)
      (by decide),
   (analysis_role_name_nonempty sampleProfile (ChatState.mk [] "goal" false "Architect")
      (some "p1") "" "").2
      (AnalysisRequest.mk (some "p1")
        "I want to transition to a new role." (TargetRole.mk "Target Role" "" "") true)
      (by decide)⟩

/-- Claim C4 counterexample: a rejection whose payload carries the detail
field present but equal to the empty string.  The claimed precedence (detail
whenever present) would make the appended error text the empty detail, but
the code's truthiness chain skips it and uses the raw error text instead. -/
theorem error_precedence_cex :
    (ApiError.mk (some "") "boom").detail = some "" ∧
    (responseMessage (Except.error (ApiError.mk (some "") "boom"))).content ≠ "" ∧
    (responseMessage (Except.error (ApiError.mk (some "") "boom"))).content = "boom" := by
  decide

/-- Claim C4 (amended): on analyze failure the appended error-kind message's
text is the detail field when present and non-empty, else the raw error text
when non-empty, else the fixed fallback; a rejection with detail
"profile not found" yields exactly that text. -/
theorem error_precedence_amended (e : ApiError) (d : String) (s1 : ChatState) :
    (e.detail = some d → d ≠ "" →
        (responseMessage (Except.error e)).content = d) ∧
    ((e.detail = none ∨ e.detail = some "") → e.message ≠ "" →
        (responseMessage (Except.error e)).content = e.message) ∧
    ((e.detail = none ∨ e.detail = some "") → e.message = "" →
        (responseMessage (Except.error e)).content = "Failed to analyze skills") ∧
    (responseMessage (Except.error e)).kind = MsgKind.error ∧
    (handleSendSettle s1 (Except.error e)).messages
      = s1.messages ++ [responseMessage (Except.error e)] ∧
    (responseMessage (Except.error
        (ApiError.mk (some "profile not found") "Request failed"))).content
      = "profile not found" := by
  refine ⟨?_, ?_, ?_, ?_, ?_, by decide⟩
  · intro hd hne
    simp [responseMessage, errorText, orElseStr, hd, hne]
  · intro hd hne
    rcases hd with hd | hd <;> simp [responseMessage, errorText, orElseStr, hd, hne]
  · intro hd he
    rcases hd with hd | hd <;> simp [responseMessage, errorText, orElseStr, hd, he]
  · simp [responseMessage]
  · simp [handleSendSettle]

theorem error_precedence_amended_witness :
    (responseMessage (Except.error
        (ApiError.mk (some "profile not found") "Request failed"))).content
      = "profile not found" :=
  (error_precedence_amended (ApiError.mk (some "profile not found") "Request failed")
      "profile not found" (ChatState.mk [] "" false "")).1 rfl (by decide)

/-- Claim C6: selecting a profile moves to the detail view only when
`profile.id || profile.profile_id` resolves to a non-empty id; otherwise both
the list-level click handler and handleSelectProfile leave the state
unchanged and surface an error, and the detail view's profileId prop is
exactly the resolved non-empty id. -/
theorem profile_selection_id_guard (s : AppState) (p : ProfileRec) :
    (firstTruthy p.id p.profile_id = none →
        handleSelectProfile s p
          = (s, some "Error: Profile ID not found. Please try again.") ∧
        profileListClick s p = (s, some "Error: Profile ID not found")) ∧
    (∀ pid, firstTruthy p.id p.profile_id = some pid →
        pid ≠ "" ∧
        handleSelectProfile s p
          = (AppState.mk View.profileDetail (some { p with id := some pid }), none) ∧
        detailViewId { p with id := some pid } = some pid ∧
        profileListClick s p = handleSelectProfile s p) := by
  constructor
  · intro h
    constructor <;> simp [handleSelectProfile, profileListClick, h]
  · intro pid h
    have hpid : pid ≠ "" := firstTruthy_ne_empty p.id p.profile_id pid h
    refine ⟨hpid, ?_, ?_, ?_⟩
    · simp [handleSelectProfile, h]
    · simp [detailViewId, h, firstTruthy_some_left _ _ hpid]
    · simp [profileListClick, handleSelectProfile, h, firstTruthy_some_left _ _ hpid]

theorem profile_selection_id_guard_witness :
    ("p1" : String) ≠ "" ∧
    handleSelectProfile (AppState.mk View.list none) sampleProfile
      = (AppState.mk View.profileDetail (some { sampleProfile with id := some "p1" }), none) ∧
    detailViewId { sampleProfile with id := some "p1" } = some "p1" ∧
    profileListClick (AppState.mk View.list none) sampleProfile
      = handleSelectProfile (AppState.mk View.list none) sampleProfile :=
  (profile_selection_id_guard (AppState.mk View.list none) sampleProfile).2 "p1" (by decide)

/-- Claim C8: opening the skills modal with an absent or empty list never
opens it and leaves the modal state entirely unchanged, surfacing an
informational notice that contains the lowercased title; with a non-empty
list all three fields are set and the modal opens. -/
theorem modal_empty_open_guard (m : ModalState)
    (skills : Option (List SkillGapItem)) (title : String) :
    ((skills = none ∨ skills = some []) →
        handleShowSkills m skills title
          = (m, some ("No " ++ jsToLower title ++ " found.")) ∧
        ∃ pre post,
          "No " ++ jsToLower title ++ " found." = pre ++ jsToLower title ++ post) ∧
    (∀ ss, skills = some ss → ss ≠ [] →
        handleShowSkills m skills title
          = (ModalState.mk true ss title, none)) := by
  constructor
  · intro h
    refine ⟨?_, "No ", " found.", rfl⟩
    rcases h with h | h <;> simp [handleShowSkills, h]
  · intro ss h hne
    subst h
    have hlen : ¬ss.length = 0 := by
      simpa using hne
    simp [handleShowSkills, hlen]

theorem modal_empty_open_guard_witness :
    ((handleShowSkills (ModalState.mk false [] "") (some []) "Skills Weak"
        = (ModalState.mk false [] "",
           some ("No " ++ jsToLower "Skills Weak" ++ " found.")) ∧
      ∃ pre post,
        "No " ++ jsToLower "Skills Weak" ++ " found."
          = pre ++ jsToLower "Skills Weak" ++ post) ∧
     "No " ++ jsToLower "Skills Weak" ++ " found." = "No skills weak found.") ∧
    handleShowSkills (ModalState.mk false [] "")
        (some [SkillGapItem.mk "Kubernetes" "missing"]) "Skills Missing"
      = (ModalState.mk true [SkillGapItem.mk "Kubernetes" "missing"] "Skills Missing",
         none) :=
  ⟨⟨(modal_empty_open_guard (ModalState.mk false [] "") (some []) "Skills Weak").1
      (Or.inr rfl),
    by decide⟩,
   (modal_empty_open_guard (ModalState.mk false [] "")
      (some [SkillGapItem.mk "Kubernetes" "missing"]) "Skills Missing").2
      [SkillGapItem.mk "Kubernetes" "missing"] rfl (by decide)⟩

/-- Claim C9: adding a pending skill whose name is blank after trimming, or a
pending certification that is blank after trimming, leaves the whole form
state — in particular the skills and certifications lists — unchanged. -/
theorem blank_add_noop (f : FormState) :
    (jsTrim f.newSkill.name = "" → handleAddSkill f = f) ∧
    (jsTrim f.newCert = "" → handleAddCert f = f) := by
  constructor <;> intro h <;> simp [handleAddSkill, handleAddCert, h]

theorem blank_add_noop_witness :
    jsTrim (FormState.mk [] [] (Skill.mk "   " "beginner" 0) " ").newSkill.name = "" ∧
    jsTrim (FormState.mk [] [] (Skill.mk "   " "beginner" 0) " ").newCert = "" ∧
    handleAddSkill (FormState.mk [] [] (Skill.mk "   " "beginner" 0) " ")
      = FormState.mk [] [] (Skill.mk "   " "beginner" 0) " " ∧
    handleAddCert (FormState.mk [] [] (Skill.mk "   " "beginner" 0) " ")
      = FormState.mk [] [] (Skill.mk "   " "beginner" 0) " " :=
  ⟨by decide, by decide,
   (blank_add_noop (FormState.mk [] [] (Skill.mk "   " "beginner" 0) " ")).1 (by decide),
   (blank_add_noop (FormState.mk [] [] (Skill.mk "   " "beginner" 0) " ")).2 (by decide)⟩

/-- Claim C10: whatever the list endpoint resolves with, the stored profiles
state is a list — a non-array payload is replaced by the empty list and
renders the "No profiles found" empty state, while an array payload is
stored as is. -/
theorem list_payload_totality :
    (∀ raw : String,
        storeProfiles (ListPayload.nonArray raw) = [] ∧
        renderProfileList (storeProfiles (ListPayload.nonArray raw))
          = ListRender.emptyState "No profiles found") ∧
    (∀ ps : List ProfileRec, storeProfiles (ListPayload.arr ps) = ps) :=
  ⟨fun _ => ⟨rfl, rfl⟩, fun _ => rfl⟩

/-- Claim C1: a response that resolves after the view it was issued from was
navigated away writes only the issuing instance's state cell, so it is a
no-op against the newly mounted view: after a back navigation and re-opening
the detail view for a different profile, a stale getProfile response does
not change what is displayed, and when two getProfile responses race the
stale one does not replace the current one; likewise a stale analyze
response never injects its message into a newer chat view. -/
theorem stale_response_discard
    (s : InstView DetailInst) (i : Nat) (pidNew : String)
    (dStale dNew : ProfileRec)
    (_hCur : s.current = some i) (hInv : i < s.nextInst)
    (t : InstView (List ChatMessage)) (j : Nat) (m : ChatMessage)
    (_hCurT : t.current = some j) (hInvT : j < t.nextInst) :
    displayed (applyGetProfileResponse i dStale
        (openProfileDetail pidNew (unmountView s)))
      = displayed (openProfileDetail pidNew (unmountView s)) ∧
    displayed (openProfileDetail pidNew (unmountView s))
      = some (DetailInst.mk pidNew none) ∧
    displayed (applyGetProfileResponse i dStale
        (applyGetProfileResponse s.nextInst dNew
          (openProfileDetail pidNew (unmountView s))))
      = some (DetailInst.mk pidNew (some dNew)) ∧
    displayed (applyChatAppend j m (openChat (unmountView t)))
      = displayed (openChat (unmountView t)) ∧
    displayed (openChat (unmountView t)) = some [] := by
  have hne : s.nextInst ≠ i := (Nat.ne_of_lt hInv).symm
  have hneT : t.nextInst ≠ j := (Nat.ne_of_lt hInvT).symm
  unfold displayed applyGetProfileResponse applyChatAppend openProfileDetail
    openChat mountView unmountView applyToInstance
  simp [hne, hneT]

theorem stale_response_discard_witness :
    sampleDetailView.current = some 0 ∧ (0 : Nat) < sampleDetailView.nextInst ∧
    sampleChatView.current = some 0 ∧ (0 : Nat) < sampleChatView.nextInst ∧
    displayed (applyGetProfileResponse 0 sampleProfile
        (applyGetProfileResponse sampleDetailView.nextInst sampleProfile2
          (openProfileDetail "p2" (unmountView sampleDetailView))))
      = some (DetailInst.mk "p2" (some sampleProfile2)) ∧
    displayed (applyChatAppend 0 sampleMsg (openChat (unmountView sampleChatView)))
      = displayed (openChat (unmountView sampleChatView)) := by
  have h := stale_response_discard sampleDetailView 0 "p2" sampleProfile sampleProfile2
    rfl (by decide) sampleChatView 0 sampleMsg rfl (by decide)
  exact ⟨rfl, by decide, rfl, by decide, h.2.2.1, h.2.2.2.1⟩
